import Mathlib

/-!
Verification of the wheel-to-conda package extractor
(`src/conda_pypi/package_extractors/whl.py`) of the conda-pypi repository.

The Python module is shallowly embedded: bytes are `List Nat` (values 0..255),
the filesystem is an explicit state record threaded through the operations,
machine-free `Nat` arithmetic with explicit `% 2 ^ 32` models the 32-bit
operations of SHA-256, and fallible operations return their state together
with an `Except` value (so that the state reached before a failure stays
observable, as it does for the real program).
-/

namespace CondaPypi

/-! ## Bytes and hex / base64url codecs -/

/-- A byte string: list of byte values (each `< 256`). -/
abbrev Bytes := List Nat

/-- Lowercase hexadecimal digit for `n < 16` (models Python `bytes.hex()` digits). -/
def hex_char (n : Nat) : Char :=
  if n < 10 then Char.ofNat (48 + n) else Char.ofNat (87 + n)

/-- Lowercase hexadecimal rendering of a byte string (models Python `bytes.hex()`). -/
def bytes_to_hex (bs : Bytes) : String :=
  String.mk (bs.flatMap fun b => [hex_char (b / 16), hex_char (b % 16)])

/-- The URL-safe base64 alphabet, as a function from a 6-bit value to its character
(models the alphabet used by Python `base64.urlsafe_b64encode`). -/
def b64_char (v : Nat) : Char :=
  if v < 26 then Char.ofNat (65 + v)
  else if v < 52 then Char.ofNat (97 + (v - 26))
  else if v < 62 then Char.ofNat (48 + (v - 52))
  else if v = 62 then Char.ofNat 45
  else Char.ofNat 95

/-- Inverse of the URL-safe base64 alphabet (models the table consulted by
Python `base64.urlsafe_b64decode`). -/
def b64_char_val (c : Char) : Option Nat :=
  let n := c.toNat
  if 65 ≤ n ∧ n ≤ 90 then some (n - 65)
  else if 97 ≤ n ∧ n ≤ 122 then some (n - 97 + 26)
  else if 48 ≤ n ∧ n ≤ 57 then some (n - 48 + 52)
  else if n = 45 then some 62
  else if n = 95 then some 63
  else none

/-- URL-safe base64 without padding: the encoding used for digests in the
wheel RECORD convention (models `base64.urlsafe_b64encode(...).rstrip("=")`). -/
def b64url_nopad : Bytes → String
  | [] => ""
  | [a] => String.mk [b64_char (a / 4), b64_char (a % 4 * 16)]
  | [a, b] =>
      String.mk [b64_char (a / 4), b64_char (a % 4 * 16 + b / 16), b64_char (b % 16 * 4)]
  | a :: b :: c :: rest =>
      String.mk [b64_char (a / 4), b64_char (a % 4 * 16 + b / 16),
        b64_char (b % 16 * 4 + c / 64), b64_char (c % 64)] ++ b64url_nopad rest

/-- Decode a padding-stripped URL-safe base64 character sequence back to bytes;
`none` on a malformed input (models `base64.urlsafe_b64decode` after padding
normalisation). -/
def b64_decode_chars : List Char → Option Bytes
  | [] => some []
  | [_] => none
  | [c1, c2] => do
      let v1 ← b64_char_val c1
      let v2 ← b64_char_val c2
      pure [v1 * 4 + v2 / 16]
  | [c1, c2, c3] => do
      let v1 ← b64_char_val c1
      let v2 ← b64_char_val c2
      let v3 ← b64_char_val c3
      pure [v1 * 4 + v2 / 16, v2 % 16 * 16 + v3 / 4]
  | c1 :: c2 :: c3 :: c4 :: rest => do
      let v1 ← b64_char_val c1
      let v2 ← b64_char_val c2
      let v3 ← b64_char_val c3
      let v4 ← b64_char_val c4
      let tail ← b64_decode_chars rest
      pure ((v1 * 4 + v2 / 16) :: (v2 % 16 * 16 + v3 / 4) :: (v3 % 4 * 64 + v4) :: tail)

/-- Decode a URL-safe base64 string (ignoring `=` padding) to bytes. -/
def b64url_decode (s : String) : Option Bytes :=
  b64_decode_chars (s.data.filter fun c => c ≠ '=')

/-- Modelled from the spec: `conda_pypi.utils.sha256_base64url_to_hex` (the module
`conda_pypi/utils.py` is not among the provided sources; only its tests are).
Per the spec, every digest stored in `paths.json` is the RECORD digest
"re-encoded as lowercase hexadecimal"; an absent, empty or whitespace-only
digest, and any malformed digest, is treated as "no digest" (`None`) rather
than raised. -/
def sha256_base64url_to_hex : Option String → Option String
  | none => none
  | some s =>
      if s.data.all Char.isWhitespace then none
      else (b64url_decode s).map bytes_to_hex

/-! ## SHA-256 (the `hashlib` algorithm used via
`installer.utils.copyfileobj_with_hashing(..., hash_algorithm="sha256")`),
modelled over `Nat` with explicit reduction mod `2 ^ 32`. -/

/-- Truncate to a 32-bit word. -/
def u32 (x : Nat) : Nat := x % 4294967296

/-- 32-bit right rotation (input assumed `< 2 ^ 32`). -/
def rotr (n x : Nat) : Nat := u32 (x / 2 ^ n + x % 2 ^ n * 2 ^ (32 - n))

/-- Logical right shift. -/
def shr (n x : Nat) : Nat := x / 2 ^ n

def big_sigma0 (x : Nat) : Nat := rotr 2 x ^^^ rotr 13 x ^^^ rotr 22 x

def big_sigma1 (x : Nat) : Nat := rotr 6 x ^^^ rotr 11 x ^^^ rotr 25 x

def small_sigma0 (x : Nat) : Nat := rotr 7 x ^^^ rotr 18 x ^^^ shr 3 x

def small_sigma1 (x : Nat) : Nat := rotr 17 x ^^^ rotr 19 x ^^^ shr 10 x

def sha_ch (e f g : Nat) : Nat := e &&& f ^^^ ((e ^^^ 4294967295) &&& g)

def sha_maj (a b c : Nat) : Nat := a &&& b ^^^ (a &&& c) ^^^ (b &&& c)

/-- The 64 SHA-256 round constants of FIPS 180-4 (decimal renderings of the
usual fractional-cube-root words). -/
def K_CONSTANTS : List Nat :=
  [1116352408, 1899447441, 3049323471, 3921009573,
   961987163, 1508970993, 2453635748, 2870763221,
   3624381080, 310598401, 607225278, 1426881987,
   1925078388, 2162078206, 2614888103, 3248222580,
   3835390401, 4022224774, 264347078, 604807628,
   770255983, 1249150122, 1555081692, 1996064986,
   2554220882, 2821834349, 2952996808, 3210313671,
   3336571891, 3584528711, 113926993, 338241895,
   666307205, 773529912, 1294757372, 1396182291,
   1695183700, 1986661051, 2177026350, 2456956037,
   2730485921, 2820302411, 3259730800, 3345764771,
   3516065817, 3600352804, 4094571909, 275423344,
   430227734, 506948616, 659060556, 883997877,
   958139571, 1322822218, 1537002063, 1747873779,
   1955562222, 2024104815, 2227730452, 2361852424,
   2428436474, 2756734187, 3204031479, 3329325298]

structure SHAState where
  a : Nat
  b : Nat
  c : Nat
  d : Nat
  e : Nat
  f : Nat
  g : Nat
  h : Nat
deriving DecidableEq

def SHA_INIT : SHAState :=
  ⟨1779033703, 3144134277, 1013904242, 2773480762,
   1359893119, 2600822924, 528734635, 1541459225⟩

/-- One SHA-256 round, consuming a (round constant, schedule word) pair. -/
def sha_round (st : SHAState) (kw : Nat × Nat) : SHAState :=
  let t1 := u32 (st.h + big_sigma1 st.e + sha_ch st.e st.f st.g + kw.1 + kw.2)
  let t2 := u32 (big_sigma0 st.a + sha_maj st.a st.b st.c)
  ⟨u32 (t1 + t2), st.a, st.b, st.c, u32 (st.d + t1), st.e, st.f, st.g⟩

/-- Big-endian 4-byte groups to 32-bit words. -/
def be_bytes_to_words : Bytes → List Nat
  | b0 :: b1 :: b2 :: b3 :: rest =>
      (b0 * 16777216 + b1 * 65536 + b2 * 256 + b3) :: be_bytes_to_words rest
  | _ => []

/-- A 32-bit word to big-endian bytes. -/
def word_to_be_bytes (w : Nat) : Bytes :=
  [w / 16777216 % 256, w / 65536 % 256, w / 256 % 256, w % 256]

/-- Extend the 16-word message schedule by `k` further words. -/
def extend_w : Nat → List Nat → List Nat
  | 0, w => w
  | k + 1, w =>
      let n := w.length
      extend_w k (w ++ [u32 (small_sigma1 (w.getD (n - 2) 0) + w.getD (n - 7) 0 +
        small_sigma0 (w.getD (n - 15) 0) + w.getD (n - 16) 0)])

/-- Compress one 64-byte block into the running state. -/
def sha_compress (st : SHAState) (block : Bytes) : SHAState :=
  let w := extend_w 48 (be_bytes_to_words block)
  let t := (K_CONSTANTS.zip w).foldl sha_round st
  ⟨u32 (st.a + t.a), u32 (st.b + t.b), u32 (st.c + t.c), u32 (st.d + t.d),
   u32 (st.e + t.e), u32 (st.f + t.f), u32 (st.g + t.g), u32 (st.h + t.h)⟩

/-- The 64-bit big-endian length field of the SHA-256 padding. -/
def len_be64 (n : Nat) : Bytes :=
  [n / 72057594037927936 % 256, n / 281474976710656 % 256, n / 1099511627776 % 256,
   n / 4294967296 % 256, n / 16777216 % 256, n / 65536 % 256, n / 256 % 256, n % 256]

/-- SHA-256 message padding: `0x80`, zeros to 56 mod 64, then the bit length. -/
def sha_pad (msg : Bytes) : Bytes :=
  msg ++ [128] ++ List.replicate ((119 - msg.length % 64) % 64) 0 ++ len_be64 (8 * msg.length)

/-- Split into 64-byte chunks (length-fuelled structural recursion). -/
def chunks_aux : Nat → Bytes → List Bytes
  | 0, _ => []
  | _, [] => []
  | fuel + 1, l => l.take 64 :: chunks_aux fuel (l.drop 64)

def chunks64 (l : Bytes) : List Bytes := chunks_aux l.length l

/-- SHA-256 digest (32 bytes) of a byte string. -/
def sha256 (msg : Bytes) : Bytes :=
  let st := (chunks64 (sha_pad msg)).foldl sha_compress SHA_INIT
  word_to_be_bytes st.a ++ word_to_be_bytes st.b ++ word_to_be_bytes st.c ++
  word_to_be_bytes st.d ++ word_to_be_bytes st.e ++ word_to_be_bytes st.f ++
  word_to_be_bytes st.g ++ word_to_be_bytes st.h

/-! ## Filesystem model

The filesystem is a record of files (path to content association list),
directories, and the set of paths marked executable. Opening a file with
Python mode `"wb"` truncates and overwrites, so `write_bin`/`write_text`
replace any existing entry at the same path; `mkdir(parents=True,
exist_ok=True)` inserts every ancestor directory and is a no-op for
directories that already exist. -/

inductive FileContent where
  | bin (b : Bytes)
  | text (s : String)
deriving DecidableEq

structure FS where
  files : List (String × FileContent)
  dirs : List String
  execs : List String
deriving DecidableEq

def emptyFS : FS := ⟨[], [], []⟩

/-- Association-list update: replace the entry at `p`, or append a new one. -/
def set_file (p : String) (c : FileContent) : List (String × FileContent) →
    List (String × FileContent)
  | [] => [(p, c)]
  | (q, c0) :: rest => if q = p then (p, c) :: rest else (q, c0) :: set_file p c rest

/-- Association-list lookup. -/
def fs_lookup (p : String) : List (String × FileContent) → Option FileContent
  | [] => none
  | (q, c) :: rest => if q = p then some c else fs_lookup p rest

/-- Open for binary writing (`"wb"`): truncate/overwrite, never fails. -/
def write_bin (p : String) (b : Bytes) (fs : FS) : FS :=
  { fs with files := set_file p (.bin b) fs.files }

/-- `Path.write_text`: write a text file, truncating/overwriting. -/
def write_text (p : String) (s : String) (fs : FS) : FS :=
  { fs with files := set_file p (.text s) fs.files }

/-- Add one directory if not already present (`mkdir(exist_ok=True)`). -/
def add_dir (d : String) (ds : List String) : List String :=
  if d ∈ ds then ds else ds ++ [d]

/-- Split a character list at `/` separators (`str.split("/")` semantics). -/
def split_path_aux (acc : List Char) : List Char → List String
  | [] => [String.mk acc.reverse]
  | c :: cs =>
      if c = '/' then String.mk acc.reverse :: split_path_aux [] cs
      else split_path_aux (c :: acc) cs

/-- Path components (split on `/`). -/
def split_path (p : String) : List String := split_path_aux [] p.data

/-- `String.startsWith`, structurally (so that it evaluates by kernel
reduction): does `s` start with `pre`? -/
def list_starts_with : List Char → List Char → Bool
  | _, [] => true
  | [], _ :: _ => false
  | a :: as, b :: bs => a == b && list_starts_with as bs

def str_starts_with (s pre : String) : Bool := list_starts_with s.data pre.data

def join_path (cs : List String) : String := String.intercalate "/" cs

/-- `PurePosixPath.as_posix()` normalisation for the relative paths this
program receives: drop empty and `.` components. -/
def as_posix (p : String) : String :=
  join_path ((split_path p).filter fun c => c ≠ "" && c ≠ ".")

/-- `Path.parent`: all but the last path component. -/
def parent_dir (p : String) : String := join_path (split_path p).dropLast

/-- The non-empty component-wise ancestors of a path, shortest first:
`"a/b/c"` yields `["a", "a/b", "a/b/c"]`. -/
def comp_ancestors : List String → List (List String)
  | [] => []
  | c :: cs => [c] :: (comp_ancestors cs).map (c :: ·)

def ancestor_paths (p : String) : List String :=
  (comp_ancestors (split_path p)).map join_path

/-- `mkdir(parents=True, exist_ok=True)` on a directory list. -/
def mkdir_all (p : String) (ds : List String) : List String :=
  (ancestor_paths p).foldl (fun acc d => add_dir d acc) ds

def mkdir_parents (p : String) (fs : FS) : FS :=
  { fs with dirs := mkdir_all p fs.dirs }

/-- `mkdir(exist_ok=True)` (no parents) on the state. -/
def mkdir_single (p : String) (fs : FS) : FS :=
  { fs with dirs := add_dir p fs.dirs }

/-- `installer.utils.make_file_executable`. -/
def make_file_executable (p : String) (fs : FS) : FS :=
  { fs with execs := add_dir p fs.execs }

/-! ## JSON documents and the serializer

`write_as_json_to_file` in the source inlines conda's helper:
`json.dumps(obj, indent=2, sort_keys=True, separators=(",", ": "))`.
The value model covers the JSON shapes this program produces. Key sorting
is applied as a pre-pass (`json_sort_keys`), which produces the same bytes
as Python's sort-at-render. -/

inductive JVal where
  | null
  | str (s : String)
  | nat (n : Nat)
  | arr (xs : List JVal)
  | obj (kvs : List (String × JVal))

/-- Four hexadecimal digits (for `\uXXXX` escapes). -/
def hex4 (n : Nat) : String :=
  String.mk [hex_char (n / 4096 % 16), hex_char (n / 256 % 16), hex_char (n / 16 % 16),
    hex_char (n % 16)]

/-- JSON string-character escaping as `json.dumps` (`ensure_ascii=True`) renders it. -/
def json_escape_char (c : Char) : String :=
  if c = '\"' then "\\\""
  else if c = '\\' then "\\\\"
  else if c = '\n' then "\\n"
  else if c = '\t' then "\\t"
  else if c = Char.ofNat 13 then "\\r"
  else if c.toNat < 32 ∨ 127 ≤ c.toNat then "\\u" ++ hex4 c.toNat
  else String.singleton c

def json_quote (s : String) : String :=
  "\"" ++ String.join (s.data.map json_escape_char) ++ "\""

/-- Python code-point string ordering (what `sort_keys=True` sorts by). -/
def char_list_lt : List Char → List Char → Bool
  | [], [] => false
  | [], _ :: _ => true
  | _ :: _, [] => false
  | a :: as, b :: bs =>
      if a.toNat < b.toNat then true
      else if b.toNat < a.toNat then false
      else char_list_lt as bs

def str_lt (a b : String) : Bool := char_list_lt a.data b.data

/-- Stable insertion into a key-sorted association list. -/
def insert_kv (p : String × JVal) : List (String × JVal) → List (String × JVal)
  | [] => [p]
  | q :: qs => if str_lt p.1 q.1 then p :: q :: qs else q :: insert_kv p qs

def sort_kvs : List (String × JVal) → List (String × JVal)
  | [] => []
  | p :: ps => insert_kv p (sort_kvs ps)

mutual

/-- Recursively sort every object's keys (`sort_keys=True`). -/
def json_sort_keys : JVal → JVal
  | .null => .null
  | .str s => .str s
  | .nat n => .nat n
  | .arr xs => .arr (json_sort_keys_arr xs)
  | .obj kvs => .obj (sort_kvs (json_sort_keys_obj kvs))

def json_sort_keys_arr : List JVal → List JVal
  | [] => []
  | x :: xs => json_sort_keys x :: json_sort_keys_arr xs

def json_sort_keys_obj : List (String × JVal) → List (String × JVal)
  | [] => []
  | (k, v) :: kvs => (k, json_sort_keys v) :: json_sort_keys_obj kvs

end

/-- `indent`-many two-space units. -/
def indent_sp (lvl : Nat) : String := String.mk (List.replicate (2 * lvl) ' ')

mutual

/-- Render a JSON value as `json.dumps(..., indent=2, separators=(isep, ksep))`
does at nesting level `lvl` (keys assumed already sorted). -/
def json_render (isep ksep : String) (lvl : Nat) : JVal → String
  | .null => "null"
  | .str s => json_quote s
  | .nat n => toString n
  | .arr xs =>
      match xs with
      | [] => "[]"
      | _ =>
          "[\n" ++
            String.intercalate (isep ++ "\n")
              ((json_render_arr isep ksep (lvl + 1) xs).map fun t => indent_sp (lvl + 1) ++ t) ++
          "\n" ++ indent_sp lvl ++ "]"
  | .obj kvs =>
      match kvs with
      | [] => "\x7b\x7d"
      | _ =>
          "\x7b\n" ++
            String.intercalate (isep ++ "\n")
              ((json_render_obj isep ksep (lvl + 1) kvs).map fun t => indent_sp (lvl + 1) ++ t) ++
          "\n" ++ indent_sp lvl ++ "\x7d"

def json_render_arr (isep ksep : String) (lvl : Nat) : List JVal → List String
  | [] => []
  | x :: xs => json_render isep ksep lvl x :: json_render_arr isep ksep lvl xs

def json_render_obj (isep ksep : String) (lvl : Nat) : List (String × JVal) → List String
  | [] => []
  | (k, v) :: kvs =>
      (json_quote k ++ ksep ++ json_render isep ksep lvl v) :: json_render_obj isep ksep lvl kvs

end

/-- `json.dumps(obj, indent=2, sort_keys=True, separators=(isep, ksep))`. -/
def json_dumps (isep ksep : String) (v : JVal) : String :=
  json_render isep ksep 0 (json_sort_keys v)

/-- The serialisation used by the source's `write_as_json_to_file`:
`json.dumps(obj, indent=2, sort_keys=True, separators=(",", ": "))`. -/
def write_as_json_str (v : JVal) : String := json_dumps "," ": " v

/-- Modelled from the spec's words: serialisation "with 2-space indentation,
sorted keys, and `", "`/`": "` separators" — i.e. with `", "` as the item
separator (to be compared with the source's `write_as_json_str`). -/
def spec_json_dumps (v : JVal) : String := json_dumps ", " ": " v

/-- `write_as_json_to_file(file_path, obj)` from the source. -/
def write_as_json_to_file (file_path : String) (obj : JVal) (fs : FS) : FS :=
  write_text file_path (write_as_json_str obj) fs

mutual

/-- Whether a key occurs anywhere in a JSON document (used to state the
`link.json` `entry_points` property). -/
def json_has_key (k : String) : JVal → Bool
  | .obj kvs => json_has_key_obj k kvs
  | .arr xs => json_has_key_arr k xs
  | _ => false

def json_has_key_arr (k : String) : List JVal → Bool
  | [] => false
  | x :: xs => json_has_key k x || json_has_key_arr k xs

def json_has_key_obj (k : String) : List (String × JVal) → Bool
  | [] => false
  | (k0, v) :: kvs => k0 == k || json_has_key k v || json_has_key_obj k kvs

end

/-! ## The wheel-to-conda extractor (`package_extractors/whl.py`) -/

/-- `installer.records.Hash`: an (algorithm name, digest value) pair. -/
structure Hash where
  name : String
  value : String
deriving DecidableEq

/-- `installer.records.RecordEntry`: one RECORD row. -/
structure RecordEntry where
  path : String
  hash_ : Option Hash
  size : Option Nat
deriving DecidableEq

/-- A wheel scheme tag (`installer.utils.Scheme` is a `str` new-type). -/
abbrev Scheme := String

/-- `SCHEME_TO_CONDA_PREFIX` from the source: maps wheel scheme names to their
conda package directory; an empty string means files go directly under the
package root. (The source name ends in a word this development cannot use as
an identifier suffix, hence the `_PFX` spelling.) -/
def SCHEME_TO_CONDA_PFX : List (Scheme × String) :=
  [("purelib", "site-packages"),
   ("platlib", "site-packages"),
   ("scripts", "bin"),
   ("data", ""),
   ("headers", "include")]

/-- Python `dict` lookup on the association list (`d[k]` / `k in d`). -/
def dict_get (k : String) : List (String × String) → Option String
  | [] => none
  | (k0, v) :: rest => if k0 = k then some v else dict_get k rest

/-- The `section` argument of `write_script`:
`Literal["console"] | Literal["gui"]`. -/
inductive ScriptSection where
  | console
  | gui
deriving DecidableEq

/-- The state of a `MyWheelDestination` (its `__init__` fields, with the
source wheel represented by its distribution name and version strings —
the only attributes of it this module consults). -/
structure MyWheelDestination where
  target_full_path : String
  sp_dir : String
  entry_points : List String
  source_name : String
  source_version : String
deriving DecidableEq

/-- `MyWheelDestination.__init__(target_full_path, source)`. -/
def init_destination (target_full_path source_name source_version : String) :
    MyWheelDestination :=
  ⟨target_full_path, target_full_path ++ "/site-packages", [], source_name, source_version⟩

/-- `installer.utils.copyfileobj_with_hashing(source, dest, "sha256")`:
streams the bytes while hashing, returning the padding-stripped URL-safe
base64 digest and the byte count (the chunked copy loop is observationally
the digest-and-length of the whole stream). -/
def copyfileobj_with_hashing (stream : Bytes) : String × Nat :=
  (b64url_nopad (sha256 stream), stream.length)

/-- `MyWheelDestination.write_script(name, module, attr, section)`: appends the
rendered entry-point line and returns a placeholder RecordEntry; the state
of the filesystem is returned untouched (the method performs no disk I/O). -/
def write_script (d : MyWheelDestination) (name module attr : String)
    (sect : ScriptSection) (fs : FS) : MyWheelDestination × FS × RecordEntry :=
  let entry_point := name ++ " = " ++ module ++ ":" ++ attr
  ({ d with entry_points := d.entry_points ++ [entry_point] }, fs,
   ⟨"../../../bin/" ++ name, none, none⟩)

/-- `MyWheelDestination.write_file(scheme, path, stream, is_executable)`.
On an unsupported scheme the `ValueError` is raised before any filesystem
operation, so the incoming state is returned unchanged next to the error. -/
def write_file (d : MyWheelDestination) (scheme : Scheme) (path0 : String)
    (stream : Bytes) (is_executable : Bool) (fs : FS) :
    FS × Except String RecordEntry :=
  match dict_get scheme SCHEME_TO_CONDA_PFX with
  | none => (fs, .error ("Unsupported scheme: " ++ scheme))
  | some conda_pfx =>
      let path := as_posix path0
      let dest_path :=
        if conda_pfx ≠ "" then d.target_full_path ++ "/" ++ conda_pfx ++ "/" ++ path
        else d.target_full_path ++ "/" ++ path
      let fs := mkdir_parents (parent_dir dest_path) fs
      let hs := copyfileobj_with_hashing stream
      let fs := write_bin dest_path stream fs
      let fs := if is_executable then make_file_executable dest_path fs else fs
      (fs, .ok ⟨path, some ⟨"sha256", hs.1⟩, some hs.2⟩)

/-- One RECORD row rendered as text (`RecordEntry.to_row` with no scheme
path rewriting, since the source passes `lambda x: None`): path, then
`name=value` for the hash or an empty field, then the size or an empty
field. -/
def record_row (r : RecordEntry) : String :=
  r.path ++ "," ++
  (match r.hash_ with
   | some h => h.name ++ "=" ++ h.value
   | none => "") ++ "," ++
  (match r.size with
   | some n => toString n
   | none => "")

/-- Models `installer.utils.construct_record_file(records, lambda x: None)`
(an external-library helper): one CSV row per accumulated record, in
accumulation order, encoded to bytes. Field quoting is not modelled; the
fields this program produces contain no CSV metacharacters. -/
def construct_record_file (records : List (Scheme × RecordEntry)) : Bytes :=
  (String.join (records.map fun sr => record_row sr.2 ++ "\r\n")).data.map Char.toNat

/-- `link.json` document: noarch python declaration, with the accumulated
entry points inserted under `"noarch"` when the list is non-empty. -/
def link_json_data (entry_points : List String) : JVal :=
  .obj [("noarch", .obj (("type", .str "python") ::
          (if entry_points ≠ [] then [("entry_points", .arr (entry_points.map .str))] else []))),
        ("package_metadata_version", .nat 1)]

/-- One `paths.json` entry for a (scheme, record) pair; `none` when the
scheme is outside the table (the Python `dict` access would raise
`KeyError`). -/
def conda_path_entry (scheme : Scheme) (record : RecordEntry) : Option JVal :=
  (dict_get scheme SCHEME_TO_CONDA_PFX).map fun conda_pfx =>
    let conda_path := if conda_pfx ≠ "" then conda_pfx ++ "/" ++ record.path else record.path
    .obj [("_path", .str conda_path),
          ("path_type", .str "hardlink"),
          ("sha256", match sha256_base64url_to_hex (record.hash_.map Hash.value) with
                     | some hex => .str hex
                     | none => .null),
          ("size_in_bytes", match record.size with
                            | some n => .nat n
                            | none => .null)]

/-- The `paths.json` accumulation loop of `_create_conda_metadata`: records
whose path starts with `".."` (entry-point placeholders) are skipped; a
record with an unknown scheme aborts with the `KeyError`. -/
def paths_of : List (Scheme × RecordEntry) → Option (List JVal)
  | [] => some []
  | (scheme, record) :: rest =>
      if str_starts_with record.path ".." then paths_of rest
      else do
        let e ← conda_path_entry scheme record
        let es ← paths_of rest
        pure (e :: es)

/-- `index.json` document for a distribution name and version. -/
def index_json_data (package_name package_version : String) : JVal :=
  let build_string := "pypi_0"
  let fn := package_name ++ "-" ++ package_version ++ "-" ++ build_string ++ ".whl"
  .obj [("name", .str package_name),
        ("version", .str package_version),
        ("build", .str build_string),
        ("build_number", .nat 0),
        ("fn", .str fn)]

/-- `MyWheelDestination._create_conda_metadata(records, source)`: writes
`link.json`, then `paths.json`, then `index.json` under `<target>/info`.
A `KeyError` while building the paths list leaves `link.json` written but
aborts before the remaining two documents, mirroring Python's execution
order. -/
def create_conda_metadata (d : MyWheelDestination)
    (records : List (Scheme × RecordEntry)) (fs : FS) : FS × Except String Unit :=
  let info_dir := d.target_full_path ++ "/info"
  let fs := mkdir_single info_dir fs
  let fs := write_as_json_to_file (info_dir ++ "/link.json") (link_json_data d.entry_points) fs
  match paths_of records with
  | none => (fs, .error "KeyError")
  | some paths =>
      let fs := write_as_json_to_file (info_dir ++ "/paths.json")
        (.obj [("paths", .arr paths), ("paths_version", .nat 1)]) fs
      let fs := write_as_json_to_file (info_dir ++ "/index.json")
        (index_json_data d.source_name d.source_version) fs
      (fs, .ok ())

/-- `MyWheelDestination.finalize_installation(scheme, record_file_path, records)`:
streams the synthesized RECORD manifest through the hashing writer into the
library subdirectory, then replaces the last accumulated record with the
RECORD file's own entry tagged `"purelib"`, and builds the metadata
documents from the modified sequence. With no accumulated records, the
`record_list[-1]` assignment raises `IndexError` — after the RECORD file was
already written. -/
def finalize_installation (d : MyWheelDestination) (scheme : Scheme)
    (record_file_path : String) (records : List (Scheme × RecordEntry)) (fs : FS) :
    FS × Except String Unit :=
  let record_list := records
  let record_bytes := construct_record_file record_list
  let dest_path := d.sp_dir ++ "/" ++ record_file_path
  let fs := write_bin dest_path record_bytes fs
  let hs := copyfileobj_with_hashing record_bytes
  let record_file_record : RecordEntry := ⟨record_file_path, some ⟨"sha256", hs.1⟩, some hs.2⟩
  match record_list with
  | [] => (fs, .error "IndexError: list assignment index out of range")
  | _ =>
      let record_list := record_list.set (record_list.length - 1) ("purelib", record_file_record)
      create_conda_metadata d record_list fs

/-- Whether an `Except` value is a success. -/
def except_is_ok {ε α : Type} : Except ε α → Bool
  | .ok _ => true
  | .error _ => false

/-- Modelled from the spec's words: the script placeholder references "a
conventional path two directories above the library root", i.e. the `bin`
directory reached by exactly two `..` components from the library root (to
be compared with the path the source constructs). -/
def spec_bin_path_two_above (name : String) : String := "../../bin/" ++ name

/-! ## Helper lemmas -/

theorem fs_lookup_set_file_self (p : String) (c : FileContent) :
    ∀ l : List (String × FileContent), fs_lookup p (set_file p c l) = some c := by
  intro l
  induction l with
  | nil => simp [set_file, fs_lookup]
  | cons q rest ih =>
      by_cases hq : q.1 = p
      · simp [set_file, fs_lookup, hq]
      · simp only [set_file, fs_lookup]
        rw [if_neg hq, fs_lookup, if_neg hq, ih]

theorem fs_lookup_set_file_ne (p q : String) (c : FileContent) (hne : q ≠ p) :
    ∀ l : List (String × FileContent), fs_lookup p (set_file q c l) = fs_lookup p l := by
  intro l
  induction l with
  | nil => simp [set_file, fs_lookup, hne]
  | cons r rest ih =>
      by_cases hr : r.1 = q
      · have hrp : ¬(r.1 = p) := fun hp => hne (hr.symm.trans hp)
        simp [set_file, if_pos hr, fs_lookup, if_neg hne, if_neg hrp]
      · simp only [set_file, if_neg hr, fs_lookup]
        by_cases hrp : r.1 = p
        · simp [hrp]
        · simp [hrp, ih]

theorem mem_add_dir_self (d : String) (ds : List String) : d ∈ add_dir d ds := by
  by_cases h : d ∈ ds <;> simp [add_dir, h]

theorem mem_add_dir_of_mem {x : String} {ds : List String} (h : x ∈ ds) (d : String) :
    x ∈ add_dir d ds := by
  by_cases hd : d ∈ ds <;> simp [add_dir, hd, h]

theorem add_dir_of_mem {d : String} {ds : List String} (h : d ∈ ds) : add_dir d ds = ds := by
  simp [add_dir, h]

theorem mem_fold_add_dir_of_mem {x : String} {ds : List String} (h : x ∈ ds) :
    ∀ l : List String, x ∈ l.foldl (fun acc d => add_dir d acc) ds := by
  intro l
  induction l generalizing ds with
  | nil => simpa using h
  | cons d rest ih => exact ih (mem_add_dir_of_mem h d)

theorem mem_fold_add_dir_of_mem_list {x : String} :
    ∀ (l : List String) (ds : List String), x ∈ l →
      x ∈ l.foldl (fun acc d => add_dir d acc) ds := by
  intro l
  induction l with
  | nil => intro ds h; cases h
  | cons d rest ih =>
      intro ds h
      rcases List.mem_cons.mp h with h | h
      · subst h
        exact mem_fold_add_dir_of_mem (mem_add_dir_self x ds) rest
      · exact ih _ h

theorem fold_add_dir_of_all_mem :
    ∀ (l : List String) (ds : List String), (∀ d ∈ l, d ∈ ds) →
      l.foldl (fun acc d => add_dir d acc) ds = ds := by
  intro l
  induction l with
  | nil => intro ds _; rfl
  | cons d rest ih =>
      intro ds h
      have hd : d ∈ ds := h d (by simp)
      simp only [List.foldl_cons, add_dir_of_mem hd]
      exact ih ds fun x hx => h x (by simp [hx])

/-- Re-running `mkdir(parents=True, exist_ok=True)` on the same path is a no-op:
directory creation is idempotent. -/
theorem mkdir_all_idem (p : String) (ds : List String) :
    mkdir_all p (mkdir_all p ds) = mkdir_all p ds := by
  unfold mkdir_all
  exact fold_add_dir_of_all_mem _ _ fun d hd => mem_fold_add_dir_of_mem_list _ _ hd

/-- Assigning to index `len - 1` of a non-empty list replaces its last
element (it does not append). -/
theorem set_last_eq_dropLast_concat {α : Type} :
    ∀ (l : List α) (x : α), l ≠ [] → l.set (l.length - 1) x = l.dropLast ++ [x] := by
  intro l
  induction l with
  | nil => intro x h; exact absurd rfl h
  | cons a rest ih =>
      intro x _
      cases rest with
      | nil => rfl
      | cons b t =>
          have h2 := ih x (by simp)
          simp only [List.length_cons, Nat.add_sub_cancel] at h2
          simp only [List.length_cons, Nat.add_sub_cancel, List.set_cons_succ,
            List.dropLast_cons₂, List.cons_append, h2]

/-! ## Claim theorems -/

/-- C1: the scheme-to-conda mapping sends `purelib` and `platlib` to
`site-packages`, `scripts` to `bin`, `headers` to `include`, and `data` to
the empty string; for any scheme outside these five, `write_file` fails
with the unsupported-scheme error and returns the filesystem state
untouched (the error is raised before any filesystem I/O). -/
theorem c1_scheme_mapping_and_unsupported_error :
    (dict_get "purelib" SCHEME_TO_CONDA_PFX = some "site-packages" ∧
     dict_get "platlib" SCHEME_TO_CONDA_PFX = some "site-packages" ∧
     dict_get "scripts" SCHEME_TO_CONDA_PFX = some "bin" ∧
     dict_get "headers" SCHEME_TO_CONDA_PFX = some "include" ∧
     dict_get "data" SCHEME_TO_CONDA_PFX = some "") ∧
    ∀ scheme : Scheme, scheme ∉ ["purelib", "platlib", "scripts", "data", "headers"] →
      dict_get scheme SCHEME_TO_CONDA_PFX = none ∧
      ∀ (d : MyWheelDestination) (path : String) (stream : Bytes) (ex : Bool) (fs : FS),
        write_file d scheme path stream ex fs =
          (fs, .error ("Unsupported scheme: " ++ scheme)) := by
  refine ⟨⟨rfl, rfl, rfl, rfl, rfl⟩, ?_⟩
  intro scheme h
  simp only [List.mem_cons, List.not_mem_nil, or_false, not_or] at h
  obtain ⟨h1, h2, h3, h4, h5⟩ := h
  have hnone : dict_get scheme SCHEME_TO_CONDA_PFX = none := by
    simp [dict_get, SCHEME_TO_CONDA_PFX,
      Ne.symm h1, Ne.symm h2, Ne.symm h3, Ne.symm h4, Ne.symm h5]
  exact ⟨hnone, fun d path stream ex fs => by simp [write_file, hnone]⟩

/-- Witness for C1 at the concrete unsupported scheme `"wheelhouse"`. -/
theorem c1_witness :
    ("wheelhouse" ∉ (["purelib", "platlib", "scripts", "data", "headers"] : List Scheme)) ∧
    (dict_get "wheelhouse" SCHEME_TO_CONDA_PFX = none ∧
     ∀ (d : MyWheelDestination) (path : String) (stream : Bytes) (ex : Bool) (fs : FS),
       write_file d "wheelhouse" path stream ex fs =
         (fs, .error ("Unsupported scheme: " ++ "wheelhouse"))) :=
  ⟨by decide, c1_scheme_mapping_and_unsupported_error.2 "wheelhouse" (by decide)⟩

/-- Closed form of `write_file` on a supported scheme. -/
theorem write_file_ok_eq (d : MyWheelDestination) (scheme : Scheme) (pfx : String)
    (path0 : String) (stream : Bytes) (ex : Bool) (fs : FS)
    (h : dict_get scheme SCHEME_TO_CONDA_PFX = some pfx)
    (dest : String)
    (hdest : dest = (if pfx ≠ "" then d.target_full_path ++ "/" ++ pfx ++ "/" ++ as_posix path0
                     else d.target_full_path ++ "/" ++ as_posix path0)) :
    write_file d scheme path0 stream ex fs =
      (let fs1 := mkdir_parents (parent_dir dest) fs
       let fs2 := write_bin dest stream fs1
       (if ex then make_file_executable dest fs2 else fs2),
       .ok ⟨as_posix path0, some ⟨"sha256", b64url_nopad (sha256 stream)⟩,
         some stream.length⟩) := by
  subst hdest
  simp [write_file, h, copyfileobj_with_hashing]

/-- C3: on a supported scheme, `write_file` writes the stream's bytes to
`target_root/scheme_pfx/relative_path` (or `target_root/relative_path` when
the scheme maps to the empty string), creates the intermediate directories
(idempotently), and returns a `RecordEntry` carrying the non-prefixed
normalized relative path, the URL-safe-base64-without-padding SHA-256
digest of the bytes, and the byte count. -/
theorem c3_write_file_spec (d : MyWheelDestination) (scheme : Scheme) (pfx : String)
    (path0 : String) (stream : Bytes) (ex : Bool) (fs : FS)
    (h : dict_get scheme SCHEME_TO_CONDA_PFX = some pfx)
    (dest : String)
    (hdest : dest = (if pfx ≠ "" then d.target_full_path ++ "/" ++ pfx ++ "/" ++ as_posix path0
                     else d.target_full_path ++ "/" ++ as_posix path0)) :
    ∃ fs' : FS,
      write_file d scheme path0 stream ex fs =
        (fs', .ok ⟨as_posix path0, some ⟨"sha256", b64url_nopad (sha256 stream)⟩,
          some stream.length⟩) ∧
      fs_lookup dest fs'.files = some (.bin stream) ∧
      fs'.dirs = mkdir_all (parent_dir dest) fs.dirs ∧
      mkdir_all (parent_dir dest) fs'.dirs = fs'.dirs := by
  rw [write_file_ok_eq d scheme pfx path0 stream ex fs h dest hdest]
  refine ⟨_, rfl, ?_, ?_, ?_⟩ <;>
    cases ex <;>
      simp [write_bin, make_file_executable, mkdir_parents, mkdir_all_idem,
        fs_lookup_set_file_self]

/-- Witness for C3: a headers-scheme write of the two bytes `"hi"` to
`demo/hello.h` under target root `pkg`. -/
theorem c3_witness :
    (dict_get "headers" SCHEME_TO_CONDA_PFX = some "include") ∧
    ∃ fs' : FS,
      write_file (init_destination "pkg" "demo" "1.0") "headers" "demo/hello.h"
          [104, 105] false emptyFS =
        (fs', .ok ⟨as_posix "demo/hello.h",
          some ⟨"sha256", b64url_nopad (sha256 [104, 105])⟩,
          some (List.length [104, 105])⟩) ∧
      fs_lookup "pkg/include/demo/hello.h" fs'.files = some (.bin [104, 105]) ∧
      fs'.dirs = mkdir_all (parent_dir "pkg/include/demo/hello.h") emptyFS.dirs ∧
      mkdir_all (parent_dir "pkg/include/demo/hello.h") fs'.dirs = fs'.dirs :=
  ⟨by decide,
   c3_write_file_spec (init_destination "pkg" "demo" "1.0") "headers" "include"
     "demo/hello.h" [104, 105] false emptyFS (by decide)
     "pkg/include/demo/hello.h" (by decide)⟩

/-- C4 counterexample: the claim says a second `write_file` call whose
destination resolves to an already-existing destination file is an error;
in the code the destination is opened with truncating mode `"wb"`, so the
second identical-destination write below succeeds (is not an error). -/
theorem c4_counterexample :
    except_is_ok
      (write_file (init_destination "pkg" "demo" "1.0") "purelib" "a.py" [51] false
        (write_file (init_destination "pkg" "demo" "1.0") "purelib" "a.py" [49, 50] false
          emptyFS).1).2 = true := by
  decide

/-- C4 (amended): `write_file` opens the destination for truncating binary
writing (`"wb"`), so when two writes — under the same scheme or under two
different schemes — resolve to the same destination file, the second call
finds that file and every one of its parent directories already in place
from the first call, and it neither raises a collision error nor a
directory-exists error: it succeeds and silently replaces the destination
file's content with the new stream's bytes. -/
theorem c4_write_file_truncating_overwrite (d : MyWheelDestination)
    (scheme1 scheme2 : Scheme) (pfx1 pfx2 : String) (path1 path2 : String)
    (s1 s2 : Bytes) (ex1 ex2 : Bool) (fs : FS)
    (h1 : dict_get scheme1 SCHEME_TO_CONDA_PFX = some pfx1)
    (h2 : dict_get scheme2 SCHEME_TO_CONDA_PFX = some pfx2)
    (dest : String)
    (hdest1 : dest = (if pfx1 ≠ "" then d.target_full_path ++ "/" ++ pfx1 ++ "/" ++ as_posix path1
                      else d.target_full_path ++ "/" ++ as_posix path1))
    (hdest2 : dest = (if pfx2 ≠ "" then d.target_full_path ++ "/" ++ pfx2 ++ "/" ++ as_posix path2
                      else d.target_full_path ++ "/" ++ as_posix path2)) :
    ∃ fs1 : FS,
      write_file d scheme1 path1 s1 ex1 fs =
        (fs1, .ok ⟨as_posix path1, some ⟨"sha256", b64url_nopad (sha256 s1)⟩,
          some s1.length⟩) ∧
      fs_lookup dest fs1.files = some (.bin s1) ∧
      (∀ p ∈ ancestor_paths (parent_dir dest), p ∈ fs1.dirs) ∧
      ∃ fs2 : FS,
        write_file d scheme2 path2 s2 ex2 fs1 =
          (fs2, .ok ⟨as_posix path2, some ⟨"sha256", b64url_nopad (sha256 s2)⟩,
            some s2.length⟩) ∧
        fs_lookup dest fs2.files = some (.bin s2) := by
  rw [write_file_ok_eq d scheme1 pfx1 path1 s1 ex1 fs h1 dest hdest1]
  refine ⟨_, rfl, ?_, ?_, ?_⟩
  · cases ex1 <;>
      simp [write_bin, make_file_executable, mkdir_parents, fs_lookup_set_file_self]
  · intro p hp
    cases ex1 <;>
      simp only [write_bin, make_file_executable, mkdir_parents, mkdir_all] <;>
      exact mem_fold_add_dir_of_mem_list _ _ hp
  · rw [write_file_ok_eq d scheme2 pfx2 path2 s2 ex2 _ h2 dest hdest2]
    refine ⟨_, rfl, ?_⟩
    cases ex2 <;>
      simp [write_bin, make_file_executable, mkdir_parents, fs_lookup_set_file_self]

/-- Witness for C4's amended theorem: the spec's observed real-world layout —
the same header file written first under the data scheme (as
`include/demo/hello.h`, empty prefix) and then under the headers scheme (as
`demo/hello.h` below the `include` prefix), both resolving to
`pkg/include/demo/hello.h`. -/
theorem c4_witness :
    (dict_get "data" SCHEME_TO_CONDA_PFX = some "") ∧
    (dict_get "headers" SCHEME_TO_CONDA_PFX = some "include") ∧
    ∃ fs1 : FS,
      write_file (init_destination "pkg" "demo" "1.0") "data" "include/demo/hello.h"
          [104, 105] false emptyFS =
        (fs1, .ok ⟨as_posix "include/demo/hello.h",
          some ⟨"sha256", b64url_nopad (sha256 [104, 105])⟩,
          some (List.length [104, 105])⟩) ∧
      fs_lookup "pkg/include/demo/hello.h" fs1.files = some (.bin [104, 105]) ∧
      (∀ p ∈ ancestor_paths (parent_dir "pkg/include/demo/hello.h"), p ∈ fs1.dirs) ∧
      ∃ fs2 : FS,
        write_file (init_destination "pkg" "demo" "1.0") "headers" "demo/hello.h"
            [104, 106] false fs1 =
          (fs2, .ok ⟨as_posix "demo/hello.h",
            some ⟨"sha256", b64url_nopad (sha256 [104, 106])⟩,
            some (List.length [104, 106])⟩) ∧
        fs_lookup "pkg/include/demo/hello.h" fs2.files = some (.bin [104, 106]) :=
  ⟨by decide, by decide,
   c4_write_file_truncating_overwrite (init_destination "pkg" "demo" "1.0")
     "data" "headers" "" "include" "include/demo/hello.h" "demo/hello.h"
     [104, 105] [104, 106] false false emptyFS (by decide) (by decide)
     "pkg/include/demo/hello.h" (by decide) (by decide)⟩

/-- C8 counterexample: the placeholder path returned by `write_script` is not
the bin path two directories above the library root that the claim
describes — the source constructs a path with three `..` components. -/
theorem c8_counterexample :
    (write_script (init_destination "pkg" "demo" "1.0") "demo-cli" "demo" "main"
      .console emptyFS).2.2.path ≠ spec_bin_path_two_above "demo-cli" := by
  decide

/-- C8 (amended): for every script declaration, `write_script` performs no
filesystem operation, appends exactly the string `name = module:attribute`
at the end of the session's entry-point sequence (preserving declaration
order), and returns a placeholder RecordEntry whose path is the
conventional bin path three directories above the library root
(`../../../bin/<name>`) and whose hash and size are both absent. -/
theorem c8_write_script_spec (d : MyWheelDestination) (name module attr : String)
    (sect : ScriptSection) (fs : FS) :
    write_script d name module attr sect fs =
      ({ d with entry_points := d.entry_points ++ [name ++ " = " ++ module ++ ":" ++ attr] },
       fs, ⟨"../../../bin/" ++ name, none, none⟩) := rfl

/-- C10: the observable behaviour of `write_script` is independent of the
`section` argument: for fixed name, module and attribute, the console and
gui variants append the identical entry-point line and return identical
states and placeholder entries. -/
theorem c10_write_script_section_independent (d : MyWheelDestination)
    (name module attr : String) (fs : FS) :
    write_script d name module attr .console fs =
      write_script d name module attr .gui fs := rfl

/-- C5: with at least one accumulated record, finalization writes the
synthesized RECORD manifest through the hashing writer into the library
subdirectory and then builds the metadata documents from the accumulated
sequence whose last entry has been replaced — not appended to — by the
RECORD file's own entry tagged under the purelib scheme; replacement
preserves the sequence length. -/
theorem c5_finalize_replaces_last (d : MyWheelDestination) (scheme : Scheme)
    (record_file_path : String) (records : List (Scheme × RecordEntry)) (fs : FS)
    (h : records ≠ []) :
    finalize_installation d scheme record_file_path records fs =
      create_conda_metadata d
        (records.dropLast ++
          [("purelib",
            ⟨record_file_path,
             some ⟨"sha256", b64url_nopad (sha256 (construct_record_file records))⟩,
             some (construct_record_file records).length⟩)])
        (write_bin (d.sp_dir ++ "/" ++ record_file_path) (construct_record_file records) fs) ∧
    ∀ e : Scheme × RecordEntry,
      (records.dropLast ++ [e]).length = records.length := by
  constructor
  · cases records with
    | nil => exact absurd rfl h
    | cons r rs =>
        simp only [finalize_installation, copyfileobj_with_hashing]
        rw [set_last_eq_dropLast_concat _ _ (by simp)]
  · intro e
    have hp : 0 < records.length := List.length_pos.mpr h
    simp only [List.length_append, List.length_dropLast, List.length_cons,
      List.length_nil]
    omega

/-- Witness for C5: a single accumulated purelib record. -/
theorem c5_witness :
    ((([("purelib", (⟨"demo/x.py", some ⟨"sha256", "QUJD"⟩, some 3⟩ : RecordEntry))]) :
        List (Scheme × RecordEntry)) ≠ []) ∧
    (finalize_installation (init_destination "pkg" "demo" "1.0") "purelib" "RECORD"
        [("purelib", ⟨"demo/x.py", some ⟨"sha256", "QUJD"⟩, some 3⟩)] emptyFS =
      create_conda_metadata (init_destination "pkg" "demo" "1.0")
        (([("purelib", (⟨"demo/x.py", some ⟨"sha256", "QUJD"⟩, some 3⟩ : RecordEntry))] :
            List (Scheme × RecordEntry)).dropLast ++
          [("purelib",
            ⟨"RECORD",
             some ⟨"sha256", b64url_nopad (sha256 (construct_record_file
               [("purelib", ⟨"demo/x.py", some ⟨"sha256", "QUJD"⟩, some 3⟩)]))⟩,
             some (construct_record_file
               [("purelib", ⟨"demo/x.py", some ⟨"sha256", "QUJD"⟩, some 3⟩)]).length⟩)])
        (write_bin ((init_destination "pkg" "demo" "1.0").sp_dir ++ "/" ++ "RECORD")
          (construct_record_file
            [("purelib", ⟨"demo/x.py", some ⟨"sha256", "QUJD"⟩, some 3⟩)]) emptyFS) ∧
     ∀ e : Scheme × RecordEntry,
       ((([("purelib", (⟨"demo/x.py", some ⟨"sha256", "QUJD"⟩, some 3⟩ : RecordEntry))]) :
           List (Scheme × RecordEntry)).dropLast ++ [e]).length =
         ([("purelib", (⟨"demo/x.py", some ⟨"sha256", "QUJD"⟩, some 3⟩ : RecordEntry))] :
           List (Scheme × RecordEntry)).length) :=
  ⟨by decide,
   c5_finalize_replaces_last (init_destination "pkg" "demo" "1.0") "purelib" "RECORD"
     [("purelib", ⟨"demo/x.py", some ⟨"sha256", "QUJD"⟩, some 3⟩)] emptyFS (by decide)⟩

/-- C9: finalization with an empty accumulated record sequence fails with the
index error of the last-entry assignment — after the RECORD manifest file
has already been written into the library subdirectory. -/
theorem c9_finalize_empty_records_fails (d : MyWheelDestination) (scheme : Scheme)
    (record_file_path : String) (fs : FS) :
    finalize_installation d scheme record_file_path [] fs =
      (write_bin (d.sp_dir ++ "/" ++ record_file_path) (construct_record_file []) fs,
       .error "IndexError: list assignment index out of range") ∧
    fs_lookup (d.sp_dir ++ "/" ++ record_file_path)
      (finalize_installation d scheme record_file_path [] fs).1.files =
        some (.bin (construct_record_file [])) := by
  refine ⟨rfl, ?_⟩
  simp [finalize_installation, write_bin, fs_lookup_set_file_self]

/-! ### Base64url round-trip lemmas -/

theorem b64_char_val_b64_char : ∀ v : Nat, v < 64 → b64_char_val (b64_char v) = some v := by
  decide

theorem b64_char_props : ∀ v : Nat, v < 64 →
    (b64_char v == '=') = false ∧ (b64_char v).isWhitespace = false := by
  decide

/-- Decoding inverts the padding-free URL-safe base64 encoding on byte values. -/
theorem b64_decode_chars_encode : ∀ bs : Bytes, (∀ x ∈ bs, x < 256) →
    b64_decode_chars (b64url_nopad bs).data = some bs := by
  intro bs
  induction bs using b64url_nopad.induct with
  | case1 => intro _; rfl
  | case2 a =>
      intro h
      have ha : a < 256 := h a (by simp)
      simp [b64url_nopad, b64_decode_chars,
        b64_char_val_b64_char _ (show a / 4 < 64 by omega),
        b64_char_val_b64_char _ (show a % 4 * 16 < 64 by omega)]
      omega
  | case3 a b =>
      intro h
      have ha : a < 256 := h a (by simp)
      have hb : b < 256 := h b (by simp)
      simp [b64url_nopad, b64_decode_chars,
        b64_char_val_b64_char _ (show a / 4 < 64 by omega),
        b64_char_val_b64_char _ (show a % 4 * 16 + b / 16 < 64 by omega),
        b64_char_val_b64_char _ (show b % 16 * 4 < 64 by omega)]
      omega
  | case4 a b c rest ih =>
      intro h
      have ha : a < 256 := h a (by simp)
      have hb : b < 256 := h b (by simp)
      have hc : c < 256 := h c (by simp)
      have htail := ih fun x hx => h x (by simp [hx])
      rw [show (b64url_nopad (a :: b :: c :: rest)).data =
          b64_char (a / 4) :: b64_char (a % 4 * 16 + b / 16) ::
            b64_char (b % 16 * 4 + c / 64) :: b64_char (c % 64) ::
            (b64url_nopad rest).data by
        simp [b64url_nopad, String.data_append]]
      simp [b64_decode_chars, htail,
        b64_char_val_b64_char _ (show a / 4 < 64 by omega),
        b64_char_val_b64_char _ (show a % 4 * 16 + b / 16 < 64 by omega),
        b64_char_val_b64_char _ (show b % 16 * 4 + c / 64 < 64 by omega),
        b64_char_val_b64_char _ (show c % 64 < 64 by omega)]
      omega

/-- Every character of a padding-free URL-safe base64 encoding of bytes is a
base64 alphabet character (so neither `=` nor whitespace). -/
theorem b64url_nopad_chars_ok : ∀ bs : Bytes, (∀ x ∈ bs, x < 256) →
    ∀ c ∈ (b64url_nopad bs).data, (c == '=') = false ∧ c.isWhitespace = false := by
  intro bs
  induction bs using b64url_nopad.induct with
  | case1 => intro _ c hc; cases hc
  | case2 a =>
      intro h c hc
      have ha : a < 256 := h a (by simp)
      simp only [b64url_nopad, List.mem_cons, List.not_mem_nil, or_false] at hc
      rcases hc with rfl | rfl
      · exact b64_char_props _ (by omega)
      · exact b64_char_props _ (by omega)
  | case3 a b =>
      intro h c hc
      have ha : a < 256 := h a (by simp)
      have hb : b < 256 := h b (by simp)
      simp only [b64url_nopad, List.mem_cons, List.not_mem_nil, or_false] at hc
      rcases hc with rfl | rfl | rfl
      · exact b64_char_props _ (by omega)
      · exact b64_char_props _ (by omega)
      · exact b64_char_props _ (by omega)
  | case4 a b c0 rest ih =>
      intro h c hc
      have ha : a < 256 := h a (by simp)
      have hb : b < 256 := h b (by simp)
      have hc0 : c0 < 256 := h c0 (by simp)
      rw [show (b64url_nopad (a :: b :: c0 :: rest)).data =
        b64_char (a / 4) :: b64_char (a % 4 * 16 + b / 16) ::
          b64_char (b % 16 * 4 + c0 / 64) :: b64_char (c0 % 64) ::
          (b64url_nopad rest).data by
        simp [b64url_nopad, String.data_append]] at hc
      simp only [List.mem_cons] at hc
      rcases hc with rfl | rfl | rfl | rfl | hc
      · exact b64_char_props _ (by omega)
      · exact b64_char_props _ (by omega)
      · exact b64_char_props _ (by omega)
      · exact b64_char_props _ (by omega)
      · exact ih (fun x hx => h x (by simp [hx])) c hc

/-- Decoding inverts the encoding at the level of `b64url_decode`. -/
theorem b64url_decode_encode (bs : Bytes) (h : ∀ x ∈ bs, x < 256) :
    b64url_decode (b64url_nopad bs) = some bs := by
  unfold b64url_decode
  rw [show ((b64url_nopad bs).data.filter fun c => c ≠ '=') = (b64url_nopad bs).data by
    rw [List.filter_eq_self]
    intro c hc
    have := (b64url_nopad_chars_ok bs h c hc).1
    simpa using this]
  exact b64_decode_chars_encode bs h

/-- A non-empty byte string never encodes to an all-whitespace base64 text. -/
theorem b64url_nopad_not_all_ws (bs : Bytes) (hne : bs ≠ []) (h : ∀ x ∈ bs, x < 256) :
    (b64url_nopad bs).data.all Char.isWhitespace = false := by
  rw [List.all_eq_false]
  cases bs with
  | nil => exact absurd rfl hne
  | cons a rest =>
      have ha : a < 256 := h a (by simp)
      have hmem : b64_char (a / 4) ∈ (b64url_nopad (a :: rest)).data := by
        cases rest with
        | nil => simp [b64url_nopad]
        | cons b rest2 =>
            cases rest2 with
            | nil => simp [b64url_nopad]
            | cons c rest3 => simp [b64url_nopad, String.data_append]
      exact ⟨_, hmem, by simp [(b64_char_props (a / 4) (by omega)).2]⟩

/-- The spec-modelled hex re-encoder really converts the padding-free URL-safe
base64 encoding of a digest into its lowercase hexadecimal rendering. -/
theorem sha256_base64url_to_hex_roundtrip (bs : Bytes) (hne : bs ≠ [])
    (h : ∀ x ∈ bs, x < 256) :
    sha256_base64url_to_hex (some (b64url_nopad bs)) = some (bytes_to_hex bs) := by
  simp [sha256_base64url_to_hex, b64url_nopad_not_all_ws bs hne h,
    b64url_decode_encode bs h]

/-- C2: in the paths manifest, every accumulated record except entry-point
placeholder records (paths starting with `..`) produces exactly one entry:
`_path` is the scheme prefix joined with the record's relative path (the
bare path when the prefix is empty), `path_type` is the fixed string
`hardlink`, `sha256` is the record's digest re-encoded by the hex
re-encoder, and `size_in_bytes` is the record's size; placeholders produce
no entry. Moreover the re-encoder really turns the URL-safe base64 of a
digest into its lowercase hexadecimal rendering. -/
theorem c2_paths_manifest :
    (∀ records : List (Scheme × RecordEntry),
      (∀ sr ∈ records, (dict_get sr.1 SCHEME_TO_CONDA_PFX).isSome = true) →
      paths_of records = some
        ((records.filter fun sr => ! str_starts_with sr.2.path "..").map fun sr =>
          JVal.obj
            [("_path", .str
                (if (dict_get sr.1 SCHEME_TO_CONDA_PFX).getD "" ≠ "" then
                   (dict_get sr.1 SCHEME_TO_CONDA_PFX).getD "" ++ "/" ++ sr.2.path
                 else sr.2.path)),
             ("path_type", .str "hardlink"),
             ("sha256", match sha256_base64url_to_hex (sr.2.hash_.map Hash.value) with
                        | some hex => .str hex
                        | none => .null),
             ("size_in_bytes", match sr.2.size with
                               | some n => .nat n
                               | none => .null)])) ∧
    (∀ digest : Bytes, digest ≠ [] → (∀ x ∈ digest, x < 256) →
      sha256_base64url_to_hex (some (b64url_nopad digest)) =
        some (bytes_to_hex digest)) := by
  constructor
  · intro records
    induction records with
    | nil => intro _; rfl
    | cons sr rest ih =>
        intro h
        obtain ⟨scheme, record⟩ := sr
        have hhead := h (scheme, record) (by simp)
        have htail := ih fun x hx => h x (by simp [hx])
        rw [Option.isSome_iff_exists] at hhead
        obtain ⟨pfx, hpfx⟩ := hhead
        by_cases hdot : str_starts_with record.path ".." = true
        · simp [paths_of, hdot, htail]
        · simp [paths_of, hdot, conda_path_entry, hpfx, htail]
  · exact fun digest hne h => sha256_base64url_to_hex_roundtrip digest hne h

/-- Witness for C2: a scripts record, a data record (empty prefix), and an
entry-point placeholder; plus the concrete digest bytes `[0, 255, 16]`. -/
theorem c2_witness :
    (∀ sr ∈ ([("scripts", (⟨"demo-cli", some ⟨"sha256", "QUJD"⟩, some 3⟩ : RecordEntry)),
              ("data", ⟨"share/doc/demo/README", some ⟨"sha256", "ZGVm"⟩, some 5⟩),
              ("scripts", ⟨"../../../bin/demo-cli", none, none⟩)] :
          List (Scheme × RecordEntry)),
        (dict_get sr.1 SCHEME_TO_CONDA_PFX).isSome = true) ∧
    paths_of
        [("scripts", ⟨"demo-cli", some ⟨"sha256", "QUJD"⟩, some 3⟩),
         ("data", ⟨"share/doc/demo/README", some ⟨"sha256", "ZGVm"⟩, some 5⟩),
         ("scripts", ⟨"../../../bin/demo-cli", none, none⟩)] = some
        ((([("scripts", (⟨"demo-cli", some ⟨"sha256", "QUJD"⟩, some 3⟩ : RecordEntry)),
            ("data", ⟨"share/doc/demo/README", some ⟨"sha256", "ZGVm"⟩, some 5⟩),
            ("scripts", ⟨"../../../bin/demo-cli", none, none⟩)] :
              List (Scheme × RecordEntry)).filter
            fun sr => ! str_starts_with sr.2.path "..").map fun sr =>
          JVal.obj
            [("_path", .str
                (if (dict_get sr.1 SCHEME_TO_CONDA_PFX).getD "" ≠ "" then
                   (dict_get sr.1 SCHEME_TO_CONDA_PFX).getD "" ++ "/" ++ sr.2.path
                 else sr.2.path)),
             ("path_type", .str "hardlink"),
             ("sha256", match sha256_base64url_to_hex (sr.2.hash_.map Hash.value) with
                        | some hex => .str hex
                        | none => .null),
             ("size_in_bytes", match sr.2.size with
                               | some n => .nat n
                               | none => .null)]) ∧
    (([0, 255, 16] : Bytes) ≠ []) ∧
    sha256_base64url_to_hex (some (b64url_nopad [0, 255, 16])) =
      some (bytes_to_hex [0, 255, 16]) :=
  ⟨by decide,
   c2_paths_manifest.1
     [("scripts", ⟨"demo-cli", some ⟨"sha256", "QUJD"⟩, some 3⟩),
      ("data", ⟨"share/doc/demo/README", some ⟨"sha256", "ZGVm"⟩, some 5⟩),
      ("scripts", ⟨"../../../bin/demo-cli", none, none⟩)] (by decide),
   by decide,
   c2_paths_manifest.2 [0, 255, 16] (by decide) (by decide)⟩

/-- Appending different suffixes to the same string yields different strings. -/
theorem string_append_right_ne (t : String) {a b : String} (h : a ≠ b) :
    t ++ a ≠ t ++ b := by
  intro he
  apply h
  apply String.ext
  have hd : (t ++ a).data = (t ++ b).data := by rw [he]
  rw [String.data_append, String.data_append] at hd
  exact List.append_cancel_left hd

/-- Closed form of `_create_conda_metadata` when every record's scheme is in
the table: the three documents are written in order under `<target>/info`. -/
theorem create_conda_metadata_eq (d : MyWheelDestination)
    (records : List (Scheme × RecordEntry)) (fs : FS) (ps : List JVal)
    (h : paths_of records = some ps) :
    create_conda_metadata d records fs =
      (write_as_json_to_file ((d.target_full_path ++ "/info") ++ "/index.json")
         (index_json_data d.source_name d.source_version)
         (write_as_json_to_file ((d.target_full_path ++ "/info") ++ "/paths.json")
            (.obj [("paths", .arr ps), ("paths_version", .nat 1)])
            (write_as_json_to_file ((d.target_full_path ++ "/info") ++ "/link.json")
               (link_json_data d.entry_points)
               (mkdir_single (d.target_full_path ++ "/info") fs))),
       .ok ()) := by
  simp [create_conda_metadata, h]

/-- C6: for distribution `demo-package` at version `0.1.0` with no script
declarations, finalization writes an `index.json` equal to the documented
five-field object and a `link.json` without any `entry_points` key; in
general the link document contains the `entry_points` key if and only if
at least one entry point was declared. -/
theorem c6_index_and_link_documents :
    (index_json_data "demo-package" "0.1.0" =
      .obj [("name", .str "demo-package"), ("version", .str "0.1.0"),
            ("build", .str "pypi_0"), ("build_number", .nat 0),
            ("fn", .str "demo-package-0.1.0-pypi_0.whl")]) ∧
    (except_is_ok (finalize_installation (init_destination "pkg" "demo-package" "0.1.0")
        "purelib" "RECORD"
        [("purelib", ⟨"demo/__init__.py", some ⟨"sha256", "QUJD"⟩, some 3⟩)]
        emptyFS).2 = true ∧
     fs_lookup "pkg/info/index.json"
        (finalize_installation (init_destination "pkg" "demo-package" "0.1.0")
          "purelib" "RECORD"
          [("purelib", ⟨"demo/__init__.py", some ⟨"sha256", "QUJD"⟩, some 3⟩)]
          emptyFS).1.files =
       some (.text (write_as_json_str (index_json_data "demo-package" "0.1.0"))) ∧
     fs_lookup "pkg/info/link.json"
        (finalize_installation (init_destination "pkg" "demo-package" "0.1.0")
          "purelib" "RECORD"
          [("purelib", ⟨"demo/__init__.py", some ⟨"sha256", "QUJD"⟩, some 3⟩)]
          emptyFS).1.files =
       some (.text (write_as_json_str (link_json_data [])))) ∧
    json_has_key "entry_points" (link_json_data []) = false ∧
    (∀ eps : List String,
      json_has_key "entry_points" (link_json_data eps) = true ↔ eps ≠ []) := by
  refine ⟨rfl, by decide, by decide, ?_⟩
  intro eps
  cases eps with
  | nil => simp; decide
  | cons e es => simp [link_json_data, json_has_key, json_has_key_obj, json_has_key_arr]

/-- C7 counterexample: the claim's `", "` item separator does not match the
bytes the code produces — the source serializes with
`separators=(",", ": ")`, so the rendering differs from one that uses
`", "` between items. -/
theorem c7_counterexample :
    write_as_json_str (index_json_data "demo-package" "0.1.0") ≠
      spec_json_dumps (index_json_data "demo-package" "0.1.0") := by
  decide

/-- C7 (amended): every JSON metadata document is serialized with 2-space
indentation, sorted keys, `","` as the item separator and `": "` as the key
separator (a deterministic function of the document, hence byte-for-byte
identical across runs): the three metadata files' bytes equal
`write_as_json_str` of their documents, and a concrete unsorted document
renders with sorted keys, 2-space indents, `,`-then-newline between items
and `": "` after each key. -/
theorem c7_json_serialization (d : MyWheelDestination)
    (records : List (Scheme × RecordEntry)) (fs : FS) (ps : List JVal)
    (h : paths_of records = some ps) :
    (fs_lookup ((d.target_full_path ++ "/info") ++ "/link.json")
        (create_conda_metadata d records fs).1.files =
      some (.text (write_as_json_str (link_json_data d.entry_points))) ∧
     fs_lookup ((d.target_full_path ++ "/info") ++ "/paths.json")
        (create_conda_metadata d records fs).1.files =
      some (.text (write_as_json_str (.obj [("paths", .arr ps), ("paths_version", .nat 1)]))) ∧
     fs_lookup ((d.target_full_path ++ "/info") ++ "/index.json")
        (create_conda_metadata d records fs).1.files =
      some (.text (write_as_json_str (index_json_data d.source_name d.source_version)))) ∧
    write_as_json_str (.obj [("b", .nat 2), ("a", .arr [.nat 1, .str "x"])]) =
      "\x7b\n  \"a\": [\n    1,\n    \"x\"\n  ],\n  \"b\": 2\n\x7d" := by
  rw [create_conda_metadata_eq d records fs ps h]
  refine ⟨⟨?_, ?_, ?_⟩, by decide⟩
  · simp only [write_as_json_to_file, write_text]
    rw [fs_lookup_set_file_ne _ _ _
        (string_append_right_ne _ (by decide : ("/index.json" : String) ≠ "/link.json")),
      fs_lookup_set_file_ne _ _ _
        (string_append_right_ne _ (by decide : ("/paths.json" : String) ≠ "/link.json")),
      fs_lookup_set_file_self]
  · simp only [write_as_json_to_file, write_text]
    rw [fs_lookup_set_file_ne _ _ _
        (string_append_right_ne _ (by decide : ("/index.json" : String) ≠ "/paths.json")),
      fs_lookup_set_file_self]
  · simp only [write_as_json_to_file, write_text]
    rw [fs_lookup_set_file_self]

/-- Witness for C7's amended theorem at an empty record list. -/
theorem c7_witness :
    (paths_of [] = some []) ∧
    ((fs_lookup (((init_destination "pkg" "demo" "1.0").target_full_path ++ "/info") ++
          "/link.json")
        (create_conda_metadata (init_destination "pkg" "demo" "1.0") [] emptyFS).1.files =
      some (.text (write_as_json_str
        (link_json_data (init_destination "pkg" "demo" "1.0").entry_points))) ∧
      fs_lookup (((init_destination "pkg" "demo" "1.0").target_full_path ++ "/info") ++
          "/paths.json")
        (create_conda_metadata (init_destination "pkg" "demo" "1.0") [] emptyFS).1.files =
      some (.text (write_as_json_str (.obj [("paths", .arr []), ("paths_version", .nat 1)]))) ∧
      fs_lookup (((init_destination "pkg" "demo" "1.0").target_full_path ++ "/info") ++
          "/index.json")
        (create_conda_metadata (init_destination "pkg" "demo" "1.0") [] emptyFS).1.files =
      some (.text (write_as_json_str
        (index_json_data (init_destination "pkg" "demo" "1.0").source_name
          (init_destination "pkg" "demo" "1.0").source_version)))) ∧
     write_as_json_str (.obj [("b", .nat 2), ("a", .arr [.nat 1, .str "x"])]) =
       "\x7b\n  \"a\": [\n    1,\n    \"x\"\n  ],\n  \"b\": 2\n\x7d") :=
  ⟨rfl, c7_json_serialization (init_destination "pkg" "demo" "1.0") [] emptyFS [] rfl⟩

end CondaPypi
